import Mathlib

/-!
# Verification of the python-training notebooks

Shallow embedding of the two notebooks of this repository:

* `src/pages/gallery/satellite_sfc_obs.ipynb` — satellite imagery plus
  surface (METAR) observations plotted with MetPy's declarative syntax;
* `src/unnamed/part_000` — the AWIPS maps-database notebook (county,
  interstate, city, lake, river and topography requests rendered with
  Cartopy/Matplotlib).

The notebooks are straight-line scripts of library calls.  The embedding
models their own glue code exactly — the branch in `get_goes_image`, the
filter loops, the pairwise-intersection plotting loops, the dataframe
filters — while the third-party services (EDEX, THREDDS) are oracles
passed in as parameters.
-/

namespace PythonTraining

/-! ## satellite_sfc_obs.ipynb : get_goes_image

Source (cell-3):
```
if len(list(cat.datasets)) < 10:
    file_num = len(list(cat.datasets))
else:
    file_num = 10
ds = cat.datasets[file_num]  # Get most recent dataset
```
`cat.datasets` indexed with an integer is positional indexing into the
ordered collection of datasets (valid positions `0 .. len-1`). -/

/-- The index computed by `get_goes_image` from the number of datasets in
the THREDDS catalog, exactly as in cell-3 of `satellite_sfc_obs.ipynb`. -/
def file_num (numDatasets : Nat) : Nat :=
  if numDatasets < 10 then numDatasets else 10

/-- Positional indexing `cat.datasets[i]`: `some` dataset when `i` is in
bounds, `none` when the access raises `IndexError`. -/
def datasetsIndex (datasets : List String) (i : Nat) : Option String :=
  datasets.get? i

/-- The dataset access performed by `get_goes_image` on a catalog with the
given dataset list. -/
def get_goes_image_access (datasets : List String) : Option String :=
  datasetsIndex datasets (file_num datasets.length)

/-! ## satellite_sfc_obs.ipynb : observation layers (cell-12)

Source:
```
obs.data  = df[df.tmpf > 32]
obs2.data = df[df.tmpf <= 32]
```
`tmpf` is a float column produced from parsed METAR reports; a report
with no air temperature yields `NaN`, and in pandas both `NaN > 32` and
`NaN <= 32` are `False`.  `none` models a `NaN` entry. -/

/-- A row of the dataframe after cell-10, reduced to the columns the
notebook reads: station identifier, the added `tmpf` column (`none` =
NaN) and the coordinates used by the CONUS subset. -/
structure ObsRow where
  station : String
  tmpf : Option ℚ
  latitude : ℚ
  longitude : ℚ
deriving DecidableEq

/-- A row of the dataframe as returned by `metar.parse_metar_file`:
`air_temperature` is in Celsius, `none` when the report carries no
temperature (NaN). -/
structure MetarRow where
  station : String
  air_temperature : Option ℚ
  latitude : ℚ
  longitude : ℚ
deriving DecidableEq

/-- Cell-10: `df['tmpf'] = (df.air_temperature.values * units(...)).to('degF')`,
the Celsius-to-Fahrenheit conversion performed by the units library
(elementwise, NaN maps to NaN). -/
def addTmpf (r : MetarRow) : ObsRow :=
  ⟨r.station, r.air_temperature.map (fun c => c * 9 / 5 + 32),
    r.latitude, r.longitude⟩

/-- Cell-10: the CONUS subset
`df = df[(df.latitude.values > 25) & (df.latitude.values < 60)]` followed
by `df = df[(df.longitude.values < -60) & (df.longitude.values > -150)]`. -/
def conusSubset (df : List ObsRow) : List ObsRow :=
  (df.filter (fun r => decide (25 < r.latitude) && decide (r.latitude < 60))).filter
    (fun r => decide (r.longitude < -60) && decide (-150 < r.longitude))

/-- Pandas elementwise `tmpf > c` on a float column: `NaN > c` is false. -/
def pandasGT (t : Option ℚ) (c : ℚ) : Bool :=
  match t with
  | some v => decide (c < v)
  | none => false

/-- Pandas elementwise `tmpf <= c` on a float column: `NaN <= c` is false. -/
def pandasLE (t : Option ℚ) (c : ℚ) : Bool :=
  match t with
  | some v => decide (v ≤ c)
  | none => false

/-- The rows plotted red: `df[df.tmpf > 32]`. -/
def obsLayerWarm (df : List ObsRow) : List ObsRow :=
  df.filter (fun r => pandasGT r.tmpf 32)

/-- The rows plotted blue: `df[df.tmpf <= 32]`. -/
def obsLayerCold (df : List ObsRow) : List ObsRow :=
  df.filter (fun r => pandasLE r.tmpf 32)

/-! ## part_000 : the city-filtering loop

Source:
```
for ob in cities:
    if ob.getString("population"):
        if ob.getNumber("prog_disc") > 50:
            if int(ob.getString("population")) > 5000:
                citylist.append(ob.getGeometry())
                cityname.append(ob.getString("name"))
```
-/

/-- A returned city record, with the fields the loop reads: `name`,
`population` and `prog_disc` attributes and the point geometry
(`the_geom`, modelled as its coordinate pair). -/
structure CityRec where
  name : String
  population : String
  prog_disc : Int
  the_geom : Int × Int
deriving DecidableEq

/-- Decimal value of a character list: digits extend the accumulator,
any non-digit character makes the parse fail. -/
def decValue (acc : Nat) : List Char → Option Nat
  | [] => some acc
  | c :: cs =>
    if c.isDigit then decValue (acc * 10 + (c.toNat - 48)) cs else none

/-- Python `int(s)` on the population string: `some` the parsed integer
for a decimal string with an optional leading minus sign, `none` when
`int()` raises `ValueError`.  (Python additionally strips surrounding
whitespace and accepts `+` and digit-group underscores; the populations
in the map table are plain digit strings.) -/
def pyInt (s : String) : Option Int :=
  match s.data with
  | [] => none
  | '-' :: cs => if cs.isEmpty then none
                 else (decValue 0 cs).map (fun n => -(n : Int))
  | cs => (decValue 0 cs).map (fun n => (n : Int))

/-- The city-filtering loop of part_000 (lines 227-232): builds
`citylist` (geometries) and `cityname` (names) in input order; `none`
models the loop aborting with `ValueError` when a selected record's
population string does not parse as an integer. -/
def cityLoop : List CityRec → Option (List (Int × Int) × List String)
  | [] => some ([], [])
  | ob :: rest =>
    if ob.population ≠ "" then
      if 50 < ob.prog_disc then
        match pyInt ob.population with
        | none => none
        | some p =>
          if 5000 < p then
            match cityLoop rest with
            | none => none
            | some (cl, cn) => some (ob.the_geom :: cl, ob.name :: cn)
          else cityLoop rest
      else cityLoop rest
    else cityLoop rest

/-- The selection condition the loop applies to one city record:
non-empty population string, `prog_disc` above 50, and population parsing
to an integer above 5000. -/
def cityCond (ob : CityRec) : Bool :=
  decide (ob.population ≠ "") && decide (50 < ob.prog_disc) &&
    (match pyInt ob.population with
     | some p => decide (5000 < p)
     | none => false)

/-- When the loop completes, its two lists are the geometry and name
projections of the same filtered sublist of `cities`. -/
theorem cityLoop_eq_filter_map (cities : List CityRec) :
    ∀ cl cn, cityLoop cities = some (cl, cn) →
      cl = (cities.filter cityCond).map CityRec.the_geom ∧
      cn = (cities.filter cityCond).map CityRec.name := by
  induction cities with
  | nil =>
    intro cl cn h
    simp only [cityLoop, Option.some.injEq, Prod.mk.injEq] at h
    simp [← h.1, ← h.2]
  | cons ob rest ih =>
    intro cl cn h
    simp only [cityLoop] at h
    by_cases h1 : ob.population = ""
    · rw [if_neg (by simp [h1])] at h
      have hcond : cityCond ob = false := by simp [cityCond, h1]
      simpa [List.filter_cons, hcond] using ih cl cn h
    · rw [if_pos h1] at h
      by_cases h2 : 50 < ob.prog_disc
      · rw [if_pos h2] at h
        cases h3 : pyInt ob.population with
        | none => rw [h3] at h; exact absurd h (by simp)
        | some p =>
          rw [h3] at h
          dsimp only at h
          by_cases h4 : 5000 < p
          · rw [if_pos h4] at h
            cases h5 : cityLoop rest with
            | none => rw [h5] at h; exact absurd h (by simp)
            | some pr =>
              rw [h5] at h
              obtain ⟨cl0, cn0⟩ := pr
              simp only [Option.some.injEq, Prod.mk.injEq] at h
              have hcond : cityCond ob = true := by
                simp [cityCond, h1, h2, h3, h4]
              obtain ⟨ihl, ihr⟩ := ih cl0 cn0 h5
              simp [List.filter_cons, hcond, ← h.1, ← h.2, ihl, ihr]
          · rw [if_neg h4] at h
            have hcond : cityCond ob = false := by
              simp [cityCond, h3, h4]
            simpa [List.filter_cons, hcond] using ih cl cn h
      · rw [if_neg h2] at h
        have hcond : cityCond ob = false := by simp [cityCond, h2]
        simpa [List.filter_cons, hcond] using ih cl cn h

/-! ## part_000 : geometries and the county plotting loop

Geometries are modelled extensionally as finite sets of plane cells, so
shapely's `intersection` is `∩`, `intersects` is "the intersection is
non-empty", and `cascaded_union` is the fold of `∪`.  The wrapper
`cbounds = Polygon(geom)` rebuilds the same region and is modelled as the
geometry itself.

Source of the plotting loop (lines 131-140, likewise for lakes):
```
for i, geom in enumerate(counties):
    cbounds = Polygon(geom)
    intersection = cbounds.intersection
    geoms = (intersection(geom)
         for geom in counties
         if cbounds.intersects(geom))
    shape_feature = ShapelyFeature(geoms, ...)
    ax.add_feature(shape_feature)
```
-/

/-- A vector geometry, extensionally: the finite set of plane cells it
covers. -/
abbrev Geom := Finset ℕ

/-- shapely `a.intersects(b)`: the two geometries share at least one
cell. -/
def intersects (a b : Geom) : Bool :=
  decide ((a ∩ b).Nonempty)

/-- shapely `a.intersection(b)`. -/
def intersection (a b : Geom) : Geom :=
  a ∩ b

/-- shapely `cascaded_union(gs)`: the union of all geometries. -/
def cascaded_union (gs : List Geom) : Geom :=
  gs.foldl (· ∪ ·) ∅

/-- The features the county (and lake) plotting loop hands to the
renderer: for every fetched geometry, the intersections with every
fetched geometry it intersects. -/
def plotPairwiseFeatures (gs : List Geom) : List (List Geom) :=
  gs.map (fun cb => (gs.filter (fun g => intersects cb g)).map
    (fun g => intersection cb g))

/-- All geometries the loop hands to the renderer, in order. -/
def renderedGeoms (gs : List Geom) : List Geom :=
  (plotPairwiseFeatures gs).flatten

/-- Modelled from the spec: the reference single-pass renderer, which
visits each fetched geometry exactly once and hands it to the renderer
unchanged. -/
def singlePassGeoms (gs : List Geom) : List Geom :=
  gs

theorem intersects_self {g : Geom} (hg : g.Nonempty) :
    intersects g g = true := by
  simpa [intersects, Finset.inter_self] using hg

theorem intersects_eq_false {a b : Geom} (h : a ∩ b = ∅) :
    intersects a b = false := by
  simp [intersects, h]

theorem filter_intersects_eq_nil {cb : Geom} {gs : List Geom}
    (h : ∀ g ∈ gs, cb ∩ g = ∅) :
    gs.filter (fun g => intersects cb g) = [] := by
  refine List.filter_eq_nil_iff.mpr fun g hg => ?_
  simp [intersects_eq_false (h g hg)]

/-- On pairwise-disjoint, non-empty geometries the pairwise plotting loop
renders each geometry exactly once (its self-intersection) in input
order. -/
theorem renderedGeoms_of_disjoint :
    ∀ gs : List Geom, (∀ g ∈ gs, g.Nonempty) →
      gs.Pairwise (fun a b => a ∩ b = ∅) →
      renderedGeoms gs = gs := by
  intro gs
  induction gs with
  | nil => intro _ _; rfl
  | cons g rest ih =>
    intro hne hd
    rw [List.pairwise_cons] at hd
    obtain ⟨hgd, hdrest⟩ := hd
    have hg : g.Nonempty := hne g (List.mem_cons_self g rest)
    have hfilter : (g :: rest).filter (fun x => intersects g x) = [g] := by
      rw [List.filter_cons, if_pos (intersects_self hg),
        filter_intersects_eq_nil hgd]
    have hmap :
        rest.map (fun cb => ((g :: rest).filter (fun x => intersects cb x)).map
            (fun x => intersection cb x))
          = rest.map (fun cb => (rest.filter (fun x => intersects cb x)).map
            (fun x => intersection cb x)) := by
      refine List.map_congr_left fun cb hcb => ?_
      rw [List.filter_cons, if_neg]
      simp [intersects_eq_false (Finset.inter_comm cb g ▸ hgd cb hcb)]
    show ((g :: rest).filter (fun x => intersects g x)).map
          (fun x => intersection g x)
        ++ (rest.map (fun cb =>
              ((g :: rest).filter (fun x => intersects cb x)).map
                (fun x => intersection cb x))).flatten
      = g :: rest
    rw [hfilter, hmap]
    have hrest : renderedGeoms rest = rest :=
      ih (fun x hx => hne x (List.mem_cons_of_mem g hx)) hdrest
    simpa [renderedGeoms, plotPairwiseFeatures, intersection,
      Finset.inter_self] using hrest

/-- A concrete returned city list: one record passing all three filters,
one with an empty population, one below the disclosure threshold, one
below the population threshold. -/
def sampleCities : List CityRec :=
  [⟨"Boulder", "108000", 80, (40, -105)⟩,
   ⟨"Nowhere", "", 90, (0, 0)⟩,
   ⟨"Hamlet", "90000", 40, (1, 1)⟩,
   ⟨"Smallville", "4000", 80, (2, 2)⟩]

/-! ## part_000 : grid records and the topography cells

Source (lines 330-359):
```
gridData = DataAccessLayer.getGridData(request)
grid = gridData[0]
topo = ma.masked_invalid(grid.getRawData())
lons, lats = grid.getLatLonCoords()
cs = ax.contourf(lons, lats, topo, 80, ...)
```
-/

/-- `m` is a rectangular two-dimensional array with `ny` rows of `nx`
entries each. -/
def isShape {α : Type} (m : List (List α)) (ny nx : Nat) : Prop :=
  m.length = ny ∧ ∀ row ∈ m, row.length = nx

/-- Modelled from the spec: a grid record returned by a gridded-data
request — per the spec's data model, "a two-dimensional array of scalar
values with associated coordinate arrays"; the producing class lives in
the external python-awips library, not in this repository.  A scalar
entry is `none` when the float value is invalid (NaN).  The shape fields
record that the data array is rectangular and that both coordinate
arrays have its shape. -/
structure GridRecord where
  ny : Nat
  nx : Nat
  raw : List (List (Option ℚ))
  lons : List (List ℚ)
  lats : List (List ℚ)
  raw_shape : isShape raw ny nx
  lons_shape : isShape lons ny nx
  lats_shape : isShape lats ny nx

/-- `grid.getRawData()`. -/
def getRawData (g : GridRecord) : List (List (Option ℚ)) :=
  g.raw

/-- `grid.getLatLonCoords()`, returning `(lons, lats)`. -/
def getLatLonCoords (g : GridRecord) : List (List ℚ) × List (List ℚ) :=
  (g.lons, g.lats)

/-- One entry of `ma.masked_invalid`: an invalid (NaN) float becomes a
masked entry, a finite value passes through unmasked. -/
def maskInvalid : Option ℚ → Option ℚ
  | none => none
  | some v => some v

/-- `ma.masked_invalid(...)` on the raw two-dimensional data. -/
def masked_invalid (m : List (List (Option ℚ))) : List (List (Option ℚ)) :=
  m.map (fun row => row.map maskInvalid)

/-- The shape precondition of `ax.contourf(lons, lats, data, ...)`: both
coordinate arrays have exactly the shape of the data array. -/
def contourfWellFormed (lons lats : List (List ℚ))
    (data : List (List (Option ℚ))) (ny nx : Nat) : Prop :=
  isShape data ny nx ∧ isShape lons ny nx ∧ isShape lats ny nx

theorem masked_invalid_shape (m : List (List (Option ℚ))) (ny nx : Nat)
    (h : isShape m ny nx) : isShape (masked_invalid m) ny nx := by
  obtain ⟨h1, h2⟩ := h
  refine ⟨by simpa [masked_invalid] using h1, ?_⟩
  intro row hrow
  simp only [masked_invalid, List.mem_map] at hrow
  obtain ⟨r0, hr0, hr⟩ := hrow
  simpa [← hr] using h2 r0 hr0

/-! ## Error propagation through the notebook pipelines

Each notebook is a linear script: every fallible operation is a call
into a third-party library, and the notebooks contain no `try`/`except`,
no retry and no fallback.  The embedding makes each fetch an oracle
returning `Except`, and the two in-script partial operations raise their
Python exception (`int()` → `ValueError` inside the city loop,
`gridData[0]` → `IndexError` on an empty response, `list.index` →
`ValueError` for a missing catalog entry). -/

/-- A runtime failure: an error raised inside a called library, or one
of the Python exceptions the scripts' own expressions can raise. -/
inductive Err where
  | service : String → Err
  | valueError : Err
  | indexError : Err
deriving DecidableEq

/-- The responses of the EDEX service to the six requests the maps
notebook submits (county, interstate, city, lake, river geometry
requests and the topo grid request), each either a value or a failure
raised inside the client library. -/
structure MapsServices where
  countiesResp : Except Err (List Geom)
  interstatesResp : Except Err (List Geom)
  citiesResp : Except Err (List CityRec)
  lakesResp : Except Err (List Geom)
  riversResp : Except Err (List Geom)
  gridResp : Except Err (List GridRecord)

/-- Everything the maps notebook computes and hands to the renderer. -/
structure MapsOutput where
  countyFeatures : List (List Geom)
  boundaryFeatures : List (List Geom)
  interstateGeoms : List Geom
  citylist : List (Int × Int)
  cityname : List String
  lakeFeatures : List (List Geom)
  riverGeoms : List Geom
  topo : List (List (Option ℚ))
  lons : List (List ℚ)
  lats : List (List ℚ)

/-- The maps notebook, cell by cell in source order: fetch counties,
union and buffer them, render the pairwise county features, fetch and
render interstates, fetch cities and run the filter loop, fetch and
render lakes and rivers, fetch the topo grid, take `gridData[0]`, mask
it and read its coordinates.  No failure is caught anywhere. -/
def runMapsNotebook (s : MapsServices) : Except Err MapsOutput :=
  match s.countiesResp with
  | .error e => .error e
  | .ok counties =>
    let merged_counties := cascaded_union counties
    let boundaries := [merged_counties]
    let countyFeatures := plotPairwiseFeatures counties
    let boundaryFeatures := plotPairwiseFeatures boundaries
    match s.interstatesResp with
    | .error e => .error e
    | .ok interstates =>
      match s.citiesResp with
      | .error e => .error e
      | .ok cities =>
        match cityLoop cities with
        | none => .error .valueError
        | some (citylist, cityname) =>
          match s.lakesResp with
          | .error e => .error e
          | .ok lakes =>
            match s.riversResp with
            | .error e => .error e
            | .ok rivers =>
              match s.gridResp with
              | .error e => .error e
              | .ok gridData =>
                match gridData.head? with
                | none => .error .indexError
                | some grid =>
                  .ok ⟨countyFeatures, boundaryFeatures, interstates,
                    citylist, cityname, plotPairwiseFeatures lakes, rivers,
                    masked_invalid (getRawData grid),
                    (getLatLonCoords grid).1, (getLatLonCoords grid).2⟩

/-- Some called library failed while the maps notebook ran: the fetch at
one of the six submission points raised `e`, every earlier operation
having succeeded. -/
def mapsServiceFailed (s : MapsServices) (e : Err) : Prop :=
  s.countiesResp = .error e
  ∨ (∃ cs, s.countiesResp = .ok cs ∧ s.interstatesResp = .error e)
  ∨ (∃ cs is, s.countiesResp = .ok cs ∧ s.interstatesResp = .ok is ∧
      s.citiesResp = .error e)
  ∨ (∃ cs is cts p, s.countiesResp = .ok cs ∧ s.interstatesResp = .ok is ∧
      s.citiesResp = .ok cts ∧ cityLoop cts = some p ∧
      s.lakesResp = .error e)
  ∨ (∃ cs is cts p ls, s.countiesResp = .ok cs ∧
      s.interstatesResp = .ok is ∧ s.citiesResp = .ok cts ∧
      cityLoop cts = some p ∧ s.lakesResp = .ok ls ∧
      s.riversResp = .error e)
  ∨ (∃ cs is cts p ls rs, s.countiesResp = .ok cs ∧
      s.interstatesResp = .ok is ∧ s.citiesResp = .ok cts ∧
      cityLoop cts = some p ∧ s.lakesResp = .ok ls ∧
      s.riversResp = .ok rs ∧ s.gridResp = .error e)

/-- The external collaborators of the satellite notebook: the GOES
catalog listing, `remote_access` on the chosen dataset (abstracted to the
valid time it yields), the METAR catalog listing, the download of the
chosen METAR file, and the METAR parser. -/
structure SatServices where
  goesDatasets : Except Err (List String)
  remoteAccess : String → Except Err Int
  metarDatasets : Except Err (List String)
  download : String → Except Err Unit
  parseMetarFile : String → Except Err (List MetarRow)

/-- What the satellite notebook hands to the panel: the valid time and
the two observation layers. -/
structure SatOutput where
  vtime : Int
  warmLayer : List ObsRow
  coldLayer : List ObsRow
deriving DecidableEq

/-- The METAR catalog entry name the notebook builds from the valid
time: `f'metar_{vtime:%Y%m%d}_{vtime:%H}00.txt'`.  The exact strftime
rendering is performed by the library; the embedding keeps only that the
name is computed from `vtime`. -/
def metarFileName (vtime : Int) : String :=
  "metar_" ++ toString vtime ++ "00.txt"

/-- Python `list.index(x)`: the position of the first occurrence, or a
`ValueError` (`none`) when the item is absent. -/
def listIndex (l : List String) (x : String) : Option Nat :=
  l.indexOf? x

/-- The satellite notebook in source order: fetch the GOES catalog,
select the dataset with `file_num`, open it remotely, read the valid
time, fetch the METAR catalog, locate and download the matching METAR
file, parse it, add `tmpf`, take the CONUS subset, and build the two
observation layers.  No failure is caught anywhere. -/
def runSatNotebook (s : SatServices) : Except Err SatOutput :=
  match s.goesDatasets with
  | .error e => .error e
  | .ok datasets =>
    match datasetsIndex datasets (file_num datasets.length) with
    | none => .error .indexError
    | some dsName =>
      match s.remoteAccess dsName with
      | .error e => .error e
      | .ok vtime =>
        match s.metarDatasets with
        | .error e => .error e
        | .ok metarList =>
          match listIndex metarList (metarFileName vtime) with
          | none => .error .valueError
          | some timeIdx =>
            match datasetsIndex metarList timeIdx with
            | none => .error .indexError
            | some metarName =>
              match s.download metarName with
              | .error e => .error e
              | .ok _ =>
                match s.parseMetarFile metarName with
                | .error e => .error e
                | .ok df =>
                  let dfc := conusSubset (df.map addTmpf)
                  .ok ⟨vtime, obsLayerWarm dfc, obsLayerCold dfc⟩

/-! ## Persistent state: the file effects of the notebook cells

The only statement in either notebook that touches the filesystem is
cell-8 of `satellite_sfc_obs.ipynb`:
```
metar_df.download(f'../../data/{metar_df.name}')
```
which writes the fetched METAR text file under `../../data/` before
`metar.parse_metar_file` reads it back.  The maps notebook creates and
modifies no files.  A file store is the list of paths present. -/

/-- The code cells of the satellite notebook, in execution order. -/
inductive SatCell where
  | importsCell       -- cell-1: imports
  | defGetGoesCell    -- cell-3: definition of get_goes_image
  | fetchSatCell      -- cell-5: ds = get_goes_image(...)
  | setVtimeCell      -- cell-6: vtime = ds.time.values...
  | metarCell         -- cell-8: catalog lookup, download, parse
  | convertCell       -- cell-10: tmpf column and CONUS subset
  | plotCell          -- cell-12: declarative plot and show
deriving DecidableEq

/-- The paths a satellite-notebook cell writes, given the name of the
METAR file chosen in cell-8: only `metar_df.download(...)` creates a
file. -/
def satCellFileWrites (metarName : String) : SatCell → List String
  | .metarCell => ["../../data/" ++ metarName]
  | _ => []

/-- The satellite notebook's cells in source order. -/
def satCells : List SatCell :=
  [.importsCell, .defGetGoesCell, .fetchSatCell, .setVtimeCell,
   .metarCell, .convertCell, .plotCell]

/-- Running the satellite notebook over a file store. -/
def runSatFiles (metarName : String) (fs : List String) : List String :=
  satCells.foldl (fun acc c => acc ++ satCellFileWrites metarName c) fs

/-- The code cells of the maps notebook, in execution order. -/
inductive MapsCell where
  | setupCell         -- lines 45-70: imports, make_map, county request
  | countyCell        -- lines 88-140: fetch, union, buffer, plot counties
  | cwaCell           -- lines 156-167: plot CWA envelope
  | interstateCell    -- lines 185-197
  | cityCell          -- lines 217-244
  | lakeCell          -- lines 262-284
  | riverCell         -- lines 300-312
  | topoCell          -- lines 330-339
  | topoPlotCell      -- lines 348-359
deriving DecidableEq

/-- The paths a maps-notebook cell writes: none — every cell only
fetches, computes in local variables and renders. -/
def mapsCellFileWrites : MapsCell → List String :=
  fun _ => []

/-- The maps notebook's cells in source order. -/
def mapsCells : List MapsCell :=
  [.setupCell, .countyCell, .cwaCell, .interstateCell, .cityCell,
   .lakeCell, .riverCell, .topoCell, .topoPlotCell]

/-- Running the maps notebook over a file store. -/
def runMapsFiles (fs : List String) : List String :=
  mapsCells.foldl (fun acc c => acc ++ mapsCellFileWrites c) fs

/-! ## Dataflow of the maps notebook

A statement-level model of part_000: each statement records the
variables it writes, the variables it reads, its pipeline stage
(request configuration, request submission, geometric set operation,
rendering, or plain glue), and — for rendering statements — which of its
reads are the geometry data handed to the renderer.  The `request`
variable is reassigned once per section; the model gives each
incarnation its own name (`req_county`, `req_interstate`, ...).  Bare
`print` and `fig`-display statements, which write nothing, are omitted. -/

/-- The pipeline stage of one statement. -/
inductive StmtKind where
  | config   -- building a request: newDataRequest, addIdentifier, setParameters, setLocationNames, setEnvelope
  | submit   -- DataAccessLayer.getGeometryData / getGridData
  | setop    -- a geometric set operation: cascaded_union, buffer
  | render   -- a plotting call: make_map, add_feature, scatter, annotate, contourf, colorbar
  | glue     -- everything else: collection loops, tuple unpacking, arithmetic
deriving DecidableEq

/-- One statement of the notebook: what it writes, what it reads, its
stage, and the geometry inputs it hands to the renderer. -/
structure Stmt where
  writes : List String
  reads : List String
  kind : StmtKind
  geomReads : List String
deriving DecidableEq

/-- The interstate plotting loop (lines 193-196): hands each fetched
interstate geometry to `ShapelyFeature`/`add_feature` directly. -/
def interstatePlotStmt : Stmt :=
  ⟨[], ["interstates", "ax"], .render, ["interstates"]⟩

/-- The statements of part_000 in source order. -/
def mapsStmts : List Stmt :=
  [ -- request = DataAccessLayer.newDataRequest('maps')           (line 69)
    ⟨["req_county"], [], .config, []⟩,
    -- request.addIdentifier('table', 'mapdata.county')           (line 70)
    ⟨["req_county"], ["req_county"], .config, []⟩,
    -- request.setLocationNames('BOU')                            (line 90)
    ⟨["req_county"], ["req_county"], .config, []⟩,
    -- request.addIdentifier('cwa', 'BOU')                        (line 91)
    ⟨["req_county"], ["req_county"], .config, []⟩,
    -- request.addIdentifier('geomField', 'the_geom')             (line 95)
    ⟨["req_county"], ["req_county"], .config, []⟩,
    -- request.addIdentifier('inLocation', 'true')                (line 96)
    ⟨["req_county"], ["req_county"], .config, []⟩,
    -- request.addIdentifier('locationField', 'cwa')              (line 97)
    ⟨["req_county"], ["req_county"], .config, []⟩,
    -- response = DataAccessLayer.getGeometryData(request, [])    (line 102)
    ⟨["response_county"], ["req_county"], .submit, []⟩,
    -- counties collection loop over response                     (lines 103-105)
    ⟨["counties"], ["response_county"], .glue, []⟩,
    -- merged_counties = cascaded_union(counties)                 (line 111)
    ⟨["merged_counties"], ["counties"], .setop, []⟩,
    -- envelope = merged_counties.buffer(2)                       (line 112)
    ⟨["envelope"], ["merged_counties"], .setop, []⟩,
    -- boundaries = [merged_counties]                             (line 113)
    ⟨["boundaries"], ["merged_counties"], .glue, []⟩,
    -- bounds = merged_counties.bounds                            (line 116)
    ⟨["bounds"], ["merged_counties"], .glue, []⟩,
    -- bbox = [bounds[0]-1, bounds[2]+1, bounds[1]-1.5, bounds[3]+1.5]  (line 117)
    ⟨["bbox"], ["bounds"], .glue, []⟩,
    -- fig, ax = make_map(bbox=bbox)                              (line 120)
    ⟨["fig", "ax"], ["bbox"], .render, []⟩,
    -- add political_boundaries and states NaturalEarth features  (lines 122-129)
    ⟨[], ["ax"], .render, []⟩,
    -- county pairwise-intersection plotting loop                 (lines 132-140)
    ⟨[], ["counties", "ax"], .render, ["counties"]⟩,
    -- CWA-envelope pairwise plotting loop over boundaries        (lines 157-165)
    ⟨[], ["boundaries", "ax"], .render, ["boundaries"]⟩,
    -- request = DataAccessLayer.newDataRequest('maps', envelope=envelope)  (line 185)
    ⟨["req_interstate"], ["envelope"], .config, []⟩,
    -- request.addIdentifier('table', 'mapdata.interstate')       (line 186)
    ⟨["req_interstate"], ["req_interstate"], .config, []⟩,
    -- request.addIdentifier('geomField', 'the_geom')             (line 187)
    ⟨["req_interstate"], ["req_interstate"], .config, []⟩,
    -- request.setParameters('name')                              (line 188)
    ⟨["req_interstate"], ["req_interstate"], .config, []⟩,
    -- interstates = DataAccessLayer.getGeometryData(request, []) (line 189)
    ⟨["interstates"], ["req_interstate"], .submit, []⟩,
    -- interstate plotting loop                                   (lines 193-196)
    interstatePlotStmt,
    -- request = DataAccessLayer.newDataRequest('maps', envelope=envelope)  (line 217)
    ⟨["req_city"], ["envelope"], .config, []⟩,
    -- request.addIdentifier('table', 'mapdata.city')             (line 218)
    ⟨["req_city"], ["req_city"], .config, []⟩,
    -- request.addIdentifier('geomField', 'the_geom')             (line 219)
    ⟨["req_city"], ["req_city"], .config, []⟩,
    -- request.setParameters('name','population','prog_disc')     (line 220)
    ⟨["req_city"], ["req_city"], .config, []⟩,
    -- cities = DataAccessLayer.getGeometryData(request, [])      (line 221)
    ⟨["cities"], ["req_city"], .submit, []⟩,
    -- city filter loop building citylist and cityname            (lines 224-232)
    ⟨["citylist", "cityname"], ["cities"], .glue, []⟩,
    -- ax.scatter of city markers                                 (lines 236-238)
    ⟨[], ["citylist", "ax"], .render, ["citylist"]⟩,
    -- annotation loop over cityname                              (lines 240-242)
    ⟨[], ["cityname", "citylist", "ax"], .render, ["citylist"]⟩,
    -- request = DataAccessLayer.newDataRequest('maps', envelope=envelope)  (line 262)
    ⟨["req_lake"], ["envelope"], .config, []⟩,
    -- request.addIdentifier('table', 'mapdata.lake')             (line 263)
    ⟨["req_lake"], ["req_lake"], .config, []⟩,
    -- request.addIdentifier('geomField', 'the_geom')             (line 264)
    ⟨["req_lake"], ["req_lake"], .config, []⟩,
    -- request.setParameters('name')                              (line 265)
    ⟨["req_lake"], ["req_lake"], .config, []⟩,
    -- response = DataAccessLayer.getGeometryData(request, [])    (line 268)
    ⟨["response_lake"], ["req_lake"], .submit, []⟩,
    -- lakes collection loop over response                        (lines 269-271)
    ⟨["lakes"], ["response_lake"], .glue, []⟩,
    -- lake pairwise-intersection plotting loop                   (lines 275-283)
    ⟨[], ["lakes", "ax"], .render, ["lakes"]⟩,
    -- request = DataAccessLayer.newDataRequest('maps', envelope=envelope)  (line 300)
    ⟨["req_river"], ["envelope"], .config, []⟩,
    -- request.addIdentifier('table', 'mapdata.majorrivers')      (line 301)
    ⟨["req_river"], ["req_river"], .config, []⟩,
    -- request.addIdentifier('geomField', 'the_geom')             (line 302)
    ⟨["req_river"], ["req_river"], .config, []⟩,
    -- request.setParameters('pname')                             (line 303)
    ⟨["req_river"], ["req_river"], .config, []⟩,
    -- rivers = DataAccessLayer.getGeometryData(request, [])      (line 304)
    ⟨["rivers"], ["req_river"], .submit, []⟩,
    -- river plotting loop                                        (lines 308-311)
    ⟨[], ["rivers", "ax"], .render, ["rivers"]⟩,
    -- request = DataAccessLayer.newDataRequest("topo")           (line 331)
    ⟨["req_topo"], [], .config, []⟩,
    -- request.addIdentifier("group", "/")                        (line 332)
    ⟨["req_topo"], ["req_topo"], .config, []⟩,
    -- request.addIdentifier("dataset", "full")                   (line 333)
    ⟨["req_topo"], ["req_topo"], .config, []⟩,
    -- request.setEnvelope(envelope)                              (line 334)
    ⟨["req_topo"], ["req_topo", "envelope"], .config, []⟩,
    -- gridData = DataAccessLayer.getGridData(request)            (line 335)
    ⟨["gridData"], ["req_topo"], .submit, []⟩,
    -- grid = gridData[0]                                         (line 348)
    ⟨["grid"], ["gridData"], .glue, []⟩,
    -- topo = ma.masked_invalid(grid.getRawData())                (line 349)
    ⟨["topo"], ["grid"], .glue, []⟩,
    -- lons, lats = grid.getLatLonCoords()                        (line 350)
    ⟨["lons", "lats"], ["grid"], .glue, []⟩,
    -- cs = ax.contourf(lons, lats, topo, 80, ...)                (line 355)
    ⟨["cs"], ["lons", "lats", "topo", "ax"], .render, ["lons", "lats", "topo"]⟩,
    -- cbar = fig.colorbar(cs, ...)                               (line 356)
    ⟨["cbar"], ["fig", "cs"], .render, []⟩ ]

/-- Every statement reads only variables written by an earlier
statement: no stage reads a value produced by a later stage. -/
def noUseBeforeDef : List Stmt → List String → Bool
  | [], _ => true
  | st :: rest, defined =>
    st.reads.all (fun v => defined.contains v) &&
      noUseBeforeDef rest (defined ++ st.writes)

/-- After the submission that reads request variable `v`, no further
configuration statement touches `v`: the request is fully configured
before it is submitted. -/
def noConfigAfterSubmit (v : String) : List Stmt → Bool
  | [] => true
  | st :: rest =>
    if st.kind = .submit && st.reads.contains v then
      rest.all (fun s2 => !(s2.kind = .config && s2.writes.contains v))
    else noConfigAfterSubmit v rest

/-- The six request variables of the notebook. -/
def requestVars : List String :=
  ["req_county", "req_interstate", "req_city", "req_lake", "req_river",
   "req_topo"]

/-- Every geometric set operation reads only variables derived from a
previously submitted request. -/
def setopsReadFetchDerived (acc : List String) : List Stmt → Bool
  | [] => true
  | st :: rest =>
    (if st.kind = .setop
     then st.reads.all (fun v => acc.contains v) else true) &&
      setopsReadFetchDerived
        (if st.kind = .submit || st.reads.any (fun v => acc.contains v)
         then acc ++ st.writes else acc) rest

/-- Every rendering statement's geometry inputs are derived from a
previously submitted request. -/
def rendersReadFetchDerived (acc : List String) : List Stmt → Bool
  | [] => true
  | st :: rest =>
    (if st.kind = .render
     then st.geomReads.all (fun v => acc.contains v) else true) &&
      rendersReadFetchDerived
        (if st.kind = .submit || st.reads.any (fun v => acc.contains v)
         then acc ++ st.writes else acc) rest

/-- The variables written by geometric set operations. -/
def setopWrites (stmts : List Stmt) : List String :=
  (stmts.filter (fun st => st.kind = .setop)).flatMap Stmt.writes

/-- The claim's strict reading: every rendering statement's geometry
inputs were produced by a set operation. -/
def rendersReadOnlySetops (stmts : List Stmt) : Bool :=
  stmts.all (fun st =>
    if st.kind = .render
    then st.geomReads.all (fun v => (setopWrites stmts).contains v)
    else true)

/-- The kind of the last statement writing `v`. -/
def producerKind (stmts : List Stmt) (v : String) : Option StmtKind :=
  (stmts.filter (fun st => st.writes.contains v)).getLast?.map Stmt.kind
def satServiceFailed (s : SatServices) (e : Err) : Prop :=
  s.goesDatasets = .error e
  ∨ (∃ ds nm, s.goesDatasets = .ok ds ∧
      datasetsIndex ds (file_num ds.length) = some nm ∧
      s.remoteAccess nm = .error e)
  ∨ (∃ ds nm vt, s.goesDatasets = .ok ds ∧
      datasetsIndex ds (file_num ds.length) = some nm ∧
      s.remoteAccess nm = .ok vt ∧ s.metarDatasets = .error e)
  ∨ (∃ ds nm vt ml ti mn, s.goesDatasets = .ok ds ∧
      datasetsIndex ds (file_num ds.length) = some nm ∧
      s.remoteAccess nm = .ok vt ∧ s.metarDatasets = .ok ml ∧
      listIndex ml (metarFileName vt) = some ti ∧
      datasetsIndex ml ti = some mn ∧ s.download mn = .error e)
  ∨ (∃ ds nm vt ml ti mn, s.goesDatasets = .ok ds ∧
      datasetsIndex ds (file_num ds.length) = some nm ∧
      s.remoteAccess nm = .ok vt ∧ s.metarDatasets = .ok ml ∧
      listIndex ml (metarFileName vt) = some ti ∧
      datasetsIndex ml ti = some mn ∧ s.download mn = .ok () ∧
      s.parseMetarFile mn = .error e)

end PythonTraining

namespace PythonTraining

/-- C1: the claim that each step performs a data-independent sequence of
library calls is false: the dataset index chosen by `get_goes_image`
depends on the fetched catalog — a catalog of 5 datasets and a catalog of
20 datasets make the step access different indices. -/
theorem C1_counterexample : file_num 5 ≠ file_num 20 := by decide

/-- C1 (amended): the satellite-image step does branch on fetched data;
the dataset index it accesses is the data-dependent value
`min (catalog size) 10`, a deterministic function of the catalog with no
retry or error-handling branch. -/
theorem C1_amended (n : Nat) : file_num n = min n 10 := by
  unfold file_num
  split <;> omega

/-- C8: at the failing input — a catalog holding 5 datasets — the code
computes `file_num = 5`, and the positional access `cat.datasets[5]` is
out of bounds (valid positions are 0..4): contrary to the claim, and to
the code's own comment `# Get most recent dataset`, the access raises
`IndexError` whenever the catalog has at most 10 datasets. -/
theorem C8_bug :
    file_num 5 = 5 ∧
      get_goes_image_access ["d0", "d1", "d2", "d3", "d4"] = none := by
  constructor
  · decide
  · rfl

/-- C9: the two plotted layers do not partition the dataframe: a row
whose `tmpf` is NaN (a METAR report with no air temperature) belongs to
the dataframe but to neither `df[df.tmpf > 32]` nor `df[df.tmpf <= 32]`. -/
theorem C9_counterexample :
    (⟨"KXYZ", none, 40, -105⟩ : ObsRow) ∈ [(⟨"KXYZ", none, 40, -105⟩ : ObsRow)] ∧
      obsLayerWarm [⟨"KXYZ", none, 40, -105⟩] = [] ∧
      obsLayerCold [⟨"KXYZ", none, 40, -105⟩] = [] := by
  refine ⟨by simp, ?_, ?_⟩ <;> rfl

/-- C9 (amended): a row whose `tmpf` is a number lies in exactly one of
the two layers — the red layer iff its temperature exceeds 32, the blue
layer iff it does not — while a row whose `tmpf` is NaN lies in neither. -/
theorem C9_amended (df : List ObsRow) (r : ObsRow) (h : r ∈ df) :
    (∀ v, r.tmpf = some v →
      (r ∈ obsLayerWarm df ↔ 32 < v) ∧
      (r ∈ obsLayerCold df ↔ v ≤ 32) ∧
      ¬(r ∈ obsLayerWarm df ∧ r ∈ obsLayerCold df)) ∧
    (r.tmpf = none → r ∉ obsLayerWarm df ∧ r ∉ obsLayerCold df) := by
  constructor
  · intro v hv
    have hw : r ∈ obsLayerWarm df ↔ 32 < v := by
      simp [obsLayerWarm, List.mem_filter, h, pandasGT, hv]
    have hc : r ∈ obsLayerCold df ↔ v ≤ 32 := by
      simp [obsLayerCold, List.mem_filter, h, pandasLE, hv]
    refine ⟨hw, hc, fun hb => ?_⟩
    exact absurd (hw.mp hb.1) (not_lt.mpr (hc.mp hb.2))
  · intro hv
    constructor
    · simp [obsLayerWarm, List.mem_filter, pandasGT, hv]
    · simp [obsLayerCold, List.mem_filter, pandasLE, hv]

/-- C9 (amended) at a concrete input: a 40-degree row is plotted in the
warm (red) layer. -/
theorem C9_amended_witness :
    (⟨"KDEN", some 40, 39, -104⟩ : ObsRow) ∈ obsLayerWarm [⟨"KDEN", some 40, 39, -104⟩] :=
  (((C9_amended [⟨"KDEN", some 40, 39, -104⟩] ⟨"KDEN", some 40, 39, -104⟩ (by simp)).1
    40 rfl).1).mpr (by norm_num)

/-- C6: the claim that rendering consumes only the results of the
geometric set operations is false: the interstate plotting statement is
a rendering statement whose geometry input `interstates` was produced by
a request submission, with no set operation in between. -/
theorem C6_counterexample :
    interstatePlotStmt ∈ mapsStmts ∧
    interstatePlotStmt.kind = .render ∧
    interstatePlotStmt.geomReads = ["interstates"] ∧
    producerKind mapsStmts "interstates" = some .submit ∧
    rendersReadOnlySetops mapsStmts = false := by
  decide

/-- C6 (amended): the pipeline stages occur in order — no statement
reads a variable written only later, every request is fully configured
before it is submitted, the geometric set operations are applied only to
data derived from previously submitted requests — and every rendering
statement's geometry inputs are derived from previously submitted
requests, some through set operations and some (interstates, rivers,
city markers, lake and county polygons, the topo grid) handed to the
renderer directly. -/
theorem C6_amended :
    noUseBeforeDef mapsStmts [] = true ∧
    requestVars.all (fun v => noConfigAfterSubmit v mapsStmts) = true ∧
    setopsReadFetchDerived [] mapsStmts = true ∧
    rendersReadFetchDerived [] mapsStmts = true := by
  decide

/-- C2: the claim that no step creates or modifies a file is false: the
METAR step of the satellite notebook writes the downloaded METAR text
file under `../../data/`, so running the notebook on an empty file store
leaves a file behind. -/
theorem C2_counterexample :
    runSatFiles "metar_20200125_1200.txt" [] =
      ["../../data/metar_20200125_1200.txt"] ∧
    runSatFiles "metar_20200125_1200.txt" [] ≠ [] := by
  constructor
  · rfl
  · decide

/-- C2 (amended): the maps notebook writes no file at all; in the
satellite notebook the only file created is the METAR text file that the
download step writes under `../../data/`, every other cell leaving the
file store untouched; all other data entities live in local variables. -/
theorem C2_amended (metarName : String) (fs : List String) :
    runMapsFiles fs = fs ∧
    runSatFiles metarName fs = fs ++ ["../../data/" ++ metarName] ∧
    (∀ c : MapsCell, mapsCellFileWrites c = []) ∧
    (∀ c : SatCell, c ≠ SatCell.metarCell →
      satCellFileWrites metarName c = []) := by
  refine ⟨?_, ?_, fun c => rfl, fun c hc => ?_⟩
  · simp [runMapsFiles, mapsCells, mapsCellFileWrites]
  · simp [runSatFiles, satCells, satCellFileWrites]
  · cases c <;> first | rfl | exact absurd rfl hc

/-- C2 (amended) at a concrete input: on an empty store the maps
notebook writes nothing, the satellite notebook writes exactly the METAR
file, and the plotting cell writes nothing. -/
theorem C2_amended_witness :
    runMapsFiles [] = [] ∧
    runSatFiles "metar.txt" [] = [] ++ ["../../data/" ++ "metar.txt"] ∧
    satCellFileWrites "metar.txt" SatCell.plotCell = [] :=
  ⟨(C2_amended "metar.txt" []).1, (C2_amended "metar.txt" []).2.1,
   (C2_amended "metar.txt" []).2.2.2 SatCell.plotCell (by decide)⟩

/-- C3: the notebooks define no error handling of their own: whenever
one of the called libraries fails — at any of the six submission points
of the maps notebook or the five external calls of the satellite
notebook, all earlier operations having succeeded — the notebook's
result is exactly that error, with no recovery, retry, caching or
reporting branch. -/
theorem C3_error_propagation (sm : MapsServices) (ss : SatServices)
    (e f : Err) (hm : mapsServiceFailed sm e) (hs : satServiceFailed ss f) :
    runMapsNotebook sm = .error e ∧ runSatNotebook ss = .error f := by
  constructor
  · rcases hm with h | ⟨c1, h1, h2⟩ | ⟨c1, i1, h1, h2, h3⟩ |
      ⟨c1, i1, t1, p1, h1, h2, h3, h4, h5⟩ |
      ⟨c1, i1, t1, p1, l1, h1, h2, h3, h4, h5, h6⟩ |
      ⟨c1, i1, t1, p1, l1, r1, h1, h2, h3, h4, h5, h6, h7⟩
    · simp [runMapsNotebook, h]
    · simp [runMapsNotebook, h1, h2]
    · simp [runMapsNotebook, h1, h2, h3]
    · obtain ⟨pl, pn⟩ := p1
      simp [runMapsNotebook, h1, h2, h3, h4, h5]
    · obtain ⟨pl, pn⟩ := p1
      simp [runMapsNotebook, h1, h2, h3, h4, h5, h6]
    · obtain ⟨pl, pn⟩ := p1
      simp [runMapsNotebook, h1, h2, h3, h4, h5, h6, h7]
  · rcases hs with h | ⟨d1, n1, h1, h2, h3⟩ | ⟨d1, n1, v1, h1, h2, h3, h4⟩ |
      ⟨d1, n1, v1, m1, x1, w1, h1, h2, h3, h4, h5, h6, h7⟩ |
      ⟨d1, n1, v1, m1, x1, w1, h1, h2, h3, h4, h5, h6, h7, h8⟩
    · simp [runSatNotebook, h]
    · simp [runSatNotebook, h1, h2, h3]
    · simp [runSatNotebook, h1, h2, h3, h4]
    · simp [runSatNotebook, h1, h2, h3, h4, h5, h6, h7]
    · simp [runSatNotebook, h1, h2, h3, h4, h5, h6, h7, h8]

/-- C3 at a concrete input: a failing county fetch and a failing GOES
catalog fetch each surface unchanged as the notebook's result. -/
theorem C3_error_propagation_witness :
    runMapsNotebook ⟨.error (.service "connection refused"), .ok [],
        .ok [], .ok [], .ok [], .ok []⟩ =
      .error (.service "connection refused") ∧
    runSatNotebook ⟨.error (.service "catalog unavailable"),
        fun _ => .ok 0, .ok [], fun _ => .ok (), fun _ => .ok []⟩ =
      .error (.service "catalog unavailable") :=
  C3_error_propagation _ _ _ _ (Or.inl rfl) (Or.inl rfl)

/-- C5: for every grid record returned by the gridded-data request, the
raw data is a rectangular two-dimensional array, masking invalid values
preserves its shape, and both coordinate arrays returned by
`getLatLonCoords` have exactly that shape, so
`contourf(lons, lats, topo)` is well-defined on every record. -/
theorem C5_gridRecord (g : GridRecord) :
    isShape (getRawData g) g.ny g.nx ∧
    contourfWellFormed (getLatLonCoords g).1 (getLatLonCoords g).2
      (masked_invalid (getRawData g)) g.ny g.nx :=
  ⟨g.raw_shape,
   masked_invalid_shape g.raw g.ny g.nx g.raw_shape,
   g.lons_shape, g.lats_shape⟩

/-- C4: the county plotting loop is not single-pass: on two overlapping
fetched counties it hands four geometries to the renderer (each county
intersected with each county it overlaps), not the two geometries of the
single-pass reference. -/
theorem C4_counterexample :
    renderedGeoms [({0, 1} : Finset ℕ), {1, 2}] ≠
      singlePassGeoms [({0, 1} : Finset ℕ), {1, 2}] := by
  decide

/-- C4 (amended): the plotting loop intersects every pair of fetched
geometries; its rendered output equals that of the single-pass reference
exactly in the degenerate case, e.g. when the fetched geometries are
non-empty and pairwise disjoint, where each geometry contributes only its
self-intersection. -/
theorem C4_amended (gs : List Geom) (hne : ∀ g ∈ gs, g.Nonempty)
    (hd : gs.Pairwise (fun a b => a ∩ b = ∅)) :
    renderedGeoms gs = singlePassGeoms gs :=
  renderedGeoms_of_disjoint gs hne hd

/-- C4 (amended) at a concrete input: two disjoint counties are each
rendered once. -/
theorem C4_amended_witness :
    renderedGeoms [({0} : Finset ℕ), {1}] =
      singlePassGeoms [({0} : Finset ℕ), {1}] :=
  C4_amended [{0}, {1}] (by decide) (by decide)

/-- C10: when the city-filtering loop completes, `citylist` and
`cityname` have equal length and are, index by index, the geometry and
name of the same returned record — one with a non-empty population
string, `prog_disc` above 50, and population parsing to an integer above
5000 — and no other city is contributed. -/
theorem C10_cityLoop (cities : List CityRec)
    (cl : List (Int × Int)) (cn : List String)
    (h : cityLoop cities = some (cl, cn)) :
    cl.length = cn.length ∧
    cl = (cities.filter cityCond).map CityRec.the_geom ∧
    cn = (cities.filter cityCond).map CityRec.name := by
  obtain ⟨hl, hr⟩ := cityLoop_eq_filter_map cities cl cn h
  refine ⟨?_, hl, hr⟩
  rw [hl, hr]
  simp

/-- C10 at a concrete input: of the four sample cities only Boulder
passes all three filters, and the loop emits its geometry and name in
lockstep. -/
theorem C10_cityLoop_witness :
    [((40 : Int), (-105 : Int))].length = ["Boulder"].length ∧
    [((40 : Int), (-105 : Int))] =
      (sampleCities.filter cityCond).map CityRec.the_geom ∧
    ["Boulder"] = (sampleCities.filter cityCond).map CityRec.name :=
  C10_cityLoop sampleCities [(40, -105)] ["Boulder"] (by rfl)

end PythonTraining
